import Mathlib

/-!
Verification of the file-classification and validation logic of the
vite-react-cornerstone3d medical file viewer.

The embedded functions are shallow translations of:
  - FileHandler.ts: isDicomFile, isVideoFile, isImageFile,
    getDetailedFileType, getFileSize, validateFile;
  - VideoPlayer.tsx: isDicomVideo (and the fileToImageId registration
    step, modelled as an outcome parameter);
  - App.tsx: the upload / drop handlers and clearFile, modelled as an
    event-step relation over the component state.

JavaScript-specific behaviour is modelled explicitly:
  - String.prototype.toLowerCase, endsWith and includes become jsToLower,
    jsEndsWith and jsIncludes on character lists;
  - the falsy-coalescing chain  a?.x || b || 1  becomes jsFrames over
    Option Int, where 0 and an absent value are both falsy;
  - each await of an external call that can throw is a constructor of an
    outcome type (RegOutcome, ProbeOutcome) passed in as a parameter.
-/

/-- Model of JS String.prototype.toLowerCase (ASCII case folding,
which covers every string the classifier compares against). -/
def jsToLower (s : String) : String := String.mk (s.data.map Char.toLower)

/-- Model of JS String.prototype.endsWith. -/
def jsEndsWith (s suffix : String) : Bool := List.isSuffixOf suffix.data s.data

/-- Helper for jsIncludes: does sub occur as a contiguous run in l? -/
def containsSub (sub : List Char) : List Char → Bool
  | [] => List.isPrefixOf sub []
  | c :: cs => List.isPrefixOf sub (c :: cs) || containsSub sub cs

/-- Model of JS String.prototype.includes (case-sensitive substring). -/
def jsIncludes (s sub : String) : Bool := containsSub sub.data s.data

/-- The observable fields of a browser File object that the classifier
and validator read: name, declared MIME type, and byte size. -/
structure JSFile where
  name : String
  type : String
  size : Nat
deriving DecidableEq, Repr

/-- The five classification tags of
FileHandler.getDetailedFileType's return type. -/
inductive FileType where
  | dicomVideo
  | dicomImage
  | regularVideo
  | regularImage
  | unknown
deriving DecidableEq, Repr

/-- Outcome of the metadata probe performed inside isDicomVideo
(VideoPlayer.tsx lines 25-29): either the three metaData.get reads
succeed, yielding sopCommonModule?.sopClassUID,
multiframeModule?.numberOfFrames and the direct numberOfFrames lookup
(each possibly absent), or some read throws. -/
inductive ProbeOutcome where
  | ok (sopClassUID : Option String) (mfFrames : Option Int) (directFrames : Option Int)
  | throwErr
deriving DecidableEq, Repr

/-- Outcome of the  await fileToImageId(file)  registration step in
FileHandler.getDetailedFileType: either it returns an imageId whose
subsequent metadata probe has the given outcome, or it throws before
any metadata is read. -/
inductive RegOutcome where
  | ok (probe : ProbeOutcome)
  | throwErr
deriving DecidableEq, Repr

/-- JS truthiness filter on an optional numeric field: undefined and 0
are falsy, every other number is truthy. -/
def jsTruthyInt : Option Int → Option Int
  | some v => if v = 0 then none else some v
  | none => none

/-- The frame-count expression of VideoPlayer.tsx lines 27-29:
multiframeModule?.numberOfFrames || metaData.get("numberOfFrames", id) || 1. -/
def jsFrames (mf direct : Option Int) : Int :=
  match jsTruthyInt mf with
  | some v => v
  | none =>
    match jsTruthyInt direct with
    | some v => v
    | none => 1

/-- The fixed known-video SOP-class list of VideoPlayer.tsx lines 31-40. -/
def videoSopClasses : List String :=
  ["1.2.840.10008.5.1.4.1.1.77.1.1.1",
   "1.2.840.10008.5.1.4.1.1.77.1.2.1",
   "1.2.840.10008.5.1.4.1.1.77.1.4.1",
   "1.2.840.10008.5.1.4.1.1.181.1",
   "1.2.840.10008.5.1.4.1.1.6.2",
   "1.2.840.10008.5.1.4.1.1.3.1",
   "1.2.840.10008.5.1.4.1.1.12.1",
   "1.2.840.10008.5.1.4.1.1.12.2"]

/-- isDicomVideo of VideoPlayer.tsx lines 23-48: on a successful probe it
returns videoSopClasses.includes(sopClassUID || "") || numberOfFrames > 1;
its try/catch turns any probe throw into false. -/
def isDicomVideo : ProbeOutcome → Bool
  | .ok sop mf direct =>
    videoSopClasses.contains (sop.getD "") || 1 < jsFrames mf direct
  | .throwErr => false

/-- FileHandler.isDicomFile: lowercased name ends with ".dcm", or the
declared MIME type is exactly "application/dicom". -/
def isDicomFile (f : JSFile) : Bool :=
  jsEndsWith (jsToLower f.name) ".dcm" || f.type == "application/dicom"

/-- The videoExtensions list of FileHandler.isVideoFile. -/
def videoExtensions : List String :=
  [".mp4", ".avi", ".mov", ".wmv", ".flv", ".webm", ".mpeg", ".mpg"]

/-- The videoMimeTypes list of FileHandler.isVideoFile. -/
def videoMimeTypes : List String :=
  ["video/mp4", "video/avi", "video/quicktime", "video/x-ms-wmv"]

/-- FileHandler.isVideoFile: some video MIME type occurs as a substring
of file.type, or the lowercased name ends with some video extension. -/
def isVideoFile (f : JSFile) : Bool :=
  videoMimeTypes.any (fun t => jsIncludes f.type t) ||
    videoExtensions.any (fun e => jsEndsWith (jsToLower f.name) e)

/-- The imageExtensions list of FileHandler.isImageFile. -/
def imageExtensions : List String :=
  [".jpg", ".jpeg", ".png", ".gif", ".bmp", ".tiff"]

/-- The imageMimeTypes list of FileHandler.isImageFile. -/
def imageMimeTypes : List String :=
  ["image/jpeg", "image/png", "image/gif", "image/bmp", "image/tiff"]

/-- FileHandler.isImageFile: some image MIME type occurs as a substring
of file.type, or the lowercased name ends with some image extension. -/
def isImageFile (f : JSFile) : Bool :=
  imageMimeTypes.any (fun t => jsIncludes f.type t) ||
    imageExtensions.any (fun e => jsEndsWith (jsToLower f.name) e)

/-- FileHandler.getDetailedFileType (lines 266-289). The registration
and probe of the DICOM branch are an explicit RegOutcome parameter; the
surrounding try/catch returns dicom-image on a registration throw
(isDicomVideo already swallows probe throws itself). -/
def getDetailedFileType (f : JSFile) (reg : RegOutcome) : FileType :=
  if isDicomFile f then
    match reg with
    | .ok probe => if isDicomVideo probe then .dicomVideo else .dicomImage
    | .throwErr => .dicomImage
  else if isVideoFile f then .regularVideo
  else if isImageFile f then .regularImage
  else .unknown

/-- One-decimal rendering num/den rounded to tenths, modelling JS
Number.prototype.toFixed(1) by round-half-up rational arithmetic. -/
def toFixed1 (num den : Nat) : String :=
  let tenths := (num * 10 + den / 2) / den
  toString (tenths / 10) ++ "." ++ toString (tenths % 10)

/-- FileHandler.getFileSize: human-readable size in B, KB or MB. -/
def getFileSize (f : JSFile) : String :=
  if f.size < 1024 then toString f.size ++ " B"
  else if f.size < 1024 * 1024 then toFixed1 f.size 1024 ++ " KB"
  else toFixed1 f.size (1024 * 1024) ++ " MB"

/-- Return type of FileHandler.validateFile. -/
structure ValidationResult where
  isValid : Bool
  errors : List String
deriving DecidableEq, Repr

/-- The maxSize constant of FileHandler.validateFile: 200 * 1024 * 1024. -/
def maxSize : Nat := 200 * 1024 * 1024

/-- FileHandler.validateFile (lines 300-317): pushes the too-large error,
then the empty error, and reports isValid iff no error was pushed. -/
def validateFile (f : JSFile) : ValidationResult :=
  let errors :=
    (if maxSize < f.size then
       ["File too large (" ++ getFileSize f ++ " > 200MB)"] else []) ++
    (if f.size = 0 then ["File is empty"] else [])
  { isValid := errors.length == 0, errors := errors }

/-- The App.tsx component state that the upload flow mutates: the
currently selected file, the displayed classification tag, and the
classification calls still awaiting resolution. Each pending entry is
the file captured by the handler closure together with the outcome its
registration/probe will produce. -/
structure AppState where
  file : Option JSFile
  fileType : FileType
  pending : List (JSFile × RegOutcome)
deriving DecidableEq, Repr

/-- The initial App state: no file, tag unknown, nothing in flight. -/
def initApp : AppState := { file := none, fileType := .unknown, pending := [] }

/-- Events of the upload flow: a handler (handleUpload or handleDrop)
runs synchronously up to its await on getDetailedFileType; a pending
classification resolves and its continuation runs; the user clears. -/
inductive AppEvent where
  | upload (f : JSFile) (reg : RegOutcome)
  | resolveAt (i : Nat)
  | clear
deriving DecidableEq, Repr

/-- One step of App.tsx. upload is the synchronous part of handleUpload
/ handleDrop lines 12-35: reset file, fileType and the error, stop on
validation failure, otherwise start the awaited classification.
resolveAt runs the continuation after the await (lines 36-37): it
unconditionally does setFileType(type) then setFile(uploadedFile) for
the captured file. clear is clearFile (lines 82-86). -/
def stepApp (s : AppState) : AppEvent → AppState
  | .upload f reg =>
    if (validateFile f).isValid then
      { file := none, fileType := .unknown, pending := s.pending ++ [(f, reg)] }
    else
      { file := none, fileType := .unknown, pending := s.pending }
  | .resolveAt i =>
    match s.pending[i]? with
    | some (f, reg) =>
      { file := some f, fileType := getDetailedFileType f reg,
        pending := s.pending.eraseIdx i }
    | none => s
  | .clear => { s with file := none, fileType := .unknown }

/-- Run a list of events from a state. -/
def runApp (s : AppState) (es : List AppEvent) : AppState := es.foldl stepApp s

/-- C1: for a DICOM candidate whose registration and metadata probe
succeed, the classification is dicom-video exactly when the probed
sopClassUID (defaulted to the empty string) is in the fixed known-video
SOP-class list or the probed frame count exceeds 1, and otherwise it is
dicom-image; no other tag can result from a successful probe. -/
theorem dicom_video_iff_sop_or_frames (f : JSFile) (sop : Option String)
    (mf nf : Option Int) (h : isDicomFile f = true) :
    (getDetailedFileType f (RegOutcome.ok (ProbeOutcome.ok sop mf nf)) = FileType.dicomVideo
        ↔ (videoSopClasses.contains (sop.getD "") = true ∨ 1 < jsFrames mf nf))
    ∧ (getDetailedFileType f (RegOutcome.ok (ProbeOutcome.ok sop mf nf)) = FileType.dicomVideo
        ∨ getDetailedFileType f (RegOutcome.ok (ProbeOutcome.ok sop mf nf)) = FileType.dicomImage) := by
  have hd : getDetailedFileType f (RegOutcome.ok (ProbeOutcome.ok sop mf nf))
      = if isDicomVideo (ProbeOutcome.ok sop mf nf) then FileType.dicomVideo
        else FileType.dicomImage := by
    simp [getDetailedFileType, h]
  rw [hd]
  simp only [isDicomVideo]
  by_cases hb : videoSopClasses.contains (sop.getD "") = true <;>
    by_cases hf : 1 < jsFrames mf nf <;> simp [hb, hf] <;> exact or_not

/-- Witness for C1: a DICOM candidate with 5 probed frames and a SOP
class outside the known-video list classifies as dicom-video. -/
theorem dicom_video_iff_sop_or_frames_witness :
    getDetailedFileType ⟨"cine.dcm", "", 10⟩
        (RegOutcome.ok (ProbeOutcome.ok (some "1.2.3.4") (some 5) none))
      = FileType.dicomVideo :=
  ((dicom_video_iff_sop_or_frames ⟨"cine.dcm", "", 10⟩ (some "1.2.3.4") (some 5) none
      (by decide)).1).mpr (Or.inr (by decide))

/-- C2: for a DICOM candidate whose metadata probe throws, the
classifier returns the ordinary dicom-image tag. The embedding returns
a plain FileType rather than an error value, modelling that the throw
is caught inside isDicomVideo and never reaches the caller. -/
theorem probe_throw_classifies_dicom_image (f : JSFile) (h : isDicomFile f = true) :
    getDetailedFileType f (RegOutcome.ok ProbeOutcome.throwErr) = FileType.dicomImage := by
  simp [getDetailedFileType, h, isDicomVideo]

/-- Witness for C2 at a concrete DICOM candidate. -/
theorem probe_throw_classifies_dicom_image_witness :
    getDetailedFileType ⟨"broken.dcm", "", 10⟩ (RegOutcome.ok ProbeOutcome.throwErr)
      = FileType.dicomImage :=
  probe_throw_classifies_dicom_image ⟨"broken.dcm", "", 10⟩ (by decide)

/-- C3: validateFile accepts every size in (0, 200MiB] with an empty
error list, isValid is true exactly when the error list is empty, the
list never holds more than one message, an over-size file yields
exactly the too-large message built from the human-readable size, an
empty file yields exactly the emptiness message, and the two error
conditions are mutually exclusive. -/
theorem validateFile_rules (f : JSFile) :
    ((0 < f.size ∧ f.size ≤ maxSize) → validateFile f = ⟨true, []⟩)
    ∧ ((validateFile f).isValid = true ↔ (validateFile f).errors = [])
    ∧ (validateFile f).errors.length ≤ 1
    ∧ (maxSize < f.size →
        (validateFile f).errors = ["File too large (" ++ getFileSize f ++ " > 200MB)"])
    ∧ (f.size = 0 → (validateFile f).errors = ["File is empty"])
    ∧ ¬(maxSize < f.size ∧ f.size = 0) := by
  unfold validateFile
  by_cases h1 : maxSize < f.size <;> by_cases h2 : f.size = 0
  · exact absurd (h2 ▸ h1) (by omega)
  · simp [h1, h2]
  · simp [h1, h2]
  · simp [h1, h2]

/-- Witness for C3 at the 200MiB boundary, one byte above it, and zero. -/
theorem validateFile_rules_witness :
    validateFile ⟨"scan.png", "image/png", 209715200⟩ = ⟨true, []⟩
    ∧ (validateFile ⟨"big.mp4", "video/mp4", 209715201⟩).errors
        = ["File too large ("
            ++ getFileSize ⟨"big.mp4", "video/mp4", 209715201⟩ ++ " > 200MB)"]
    ∧ (validateFile ⟨"empty.dcm", "", 0⟩).errors = ["File is empty"] :=
  ⟨(validateFile_rules ⟨"scan.png", "image/png", 209715200⟩).1 (by decide),
   (validateFile_rules ⟨"big.mp4", "video/mp4", 209715201⟩).2.2.2.1 (by decide),
   (validateFile_rules ⟨"empty.dcm", "", 0⟩).2.2.2.2.1 (by decide)⟩

/-- C4: classification is decided in order with first match winning:
among non-DICOM files one matching both the video and the image
criteria is regular-video, a DICOM candidate is always one of
dicom-video or dicom-image regardless of any other match, a file
matching none of the three detectors is unknown, and the three concrete
examples video.mp4 with MIME video/mp4, scan.png with empty MIME, and
data.xyz with empty MIME classify as regular-video, regular-image and
unknown respectively whatever the probe outcome would have been. -/
theorem classify_first_match_order (f : JSFile) (reg : RegOutcome) :
    (isDicomFile f = false → isVideoFile f = true → isImageFile f = true →
        getDetailedFileType f reg = FileType.regularVideo)
    ∧ (isDicomFile f = true →
        getDetailedFileType f reg = FileType.dicomVideo ∨
        getDetailedFileType f reg = FileType.dicomImage)
    ∧ (isDicomFile f = false → isVideoFile f = false → isImageFile f = false →
        getDetailedFileType f reg = FileType.unknown)
    ∧ getDetailedFileType ⟨"video.mp4", "video/mp4", 7⟩ reg = FileType.regularVideo
    ∧ getDetailedFileType ⟨"scan.png", "", 7⟩ reg = FileType.regularImage
    ∧ getDetailedFileType ⟨"data.xyz", "", 7⟩ reg = FileType.unknown := by
  refine ⟨?_, ?_, ?_, ?_, ?_, ?_⟩
  · intro h1 h2 h3
    simp [getDetailedFileType, h1, h2]
  · intro h
    simp only [getDetailedFileType, h, if_true]
    cases reg with
    | ok p => by_cases hv : isDicomVideo p = true <;> simp [hv]
    | throwErr => exact Or.inr rfl
  · intro h1 h2 h3
    simp [getDetailedFileType, h1, h2, h3]
  · have hd : isDicomFile ⟨"video.mp4", "video/mp4", 7⟩ = false := by decide
    have hv : isVideoFile ⟨"video.mp4", "video/mp4", 7⟩ = true := by decide
    simp [getDetailedFileType, hd, hv]
  · have hd : isDicomFile ⟨"scan.png", "", 7⟩ = false := by decide
    have hv : isVideoFile ⟨"scan.png", "", 7⟩ = false := by decide
    have hi : isImageFile ⟨"scan.png", "", 7⟩ = true := by decide
    simp [getDetailedFileType, hd, hv, hi]
  · have hd : isDicomFile ⟨"data.xyz", "", 7⟩ = false := by decide
    have hv : isVideoFile ⟨"data.xyz", "", 7⟩ = false := by decide
    have hi : isImageFile ⟨"data.xyz", "", 7⟩ = false := by decide
    simp [getDetailedFileType, hd, hv, hi]

/-- Witness for C4: a file matching both the video and image criteria
classifies regular-video, a DICOM candidate gets a DICOM tag, and a
file matching nothing is unknown. -/
theorem classify_first_match_order_witness :
    getDetailedFileType ⟨"clip.jpg", "video/mp4", 9⟩ RegOutcome.throwErr
      = FileType.regularVideo
    ∧ (getDetailedFileType ⟨"x.dcm", "", 9⟩ RegOutcome.throwErr = FileType.dicomVideo
        ∨ getDetailedFileType ⟨"x.dcm", "", 9⟩ RegOutcome.throwErr = FileType.dicomImage)
    ∧ getDetailedFileType ⟨"notes.txt", "text/plain", 9⟩ RegOutcome.throwErr
      = FileType.unknown :=
  ⟨(classify_first_match_order ⟨"clip.jpg", "video/mp4", 9⟩ RegOutcome.throwErr).1
      (by decide) (by decide) (by decide),
   (classify_first_match_order ⟨"x.dcm", "", 9⟩ RegOutcome.throwErr).2.1 (by decide),
   (classify_first_match_order ⟨"notes.txt", "text/plain", 9⟩ RegOutcome.throwErr).2.2.1
      (by decide) (by decide) (by decide)⟩

/-- C5: a file is a DICOM candidate exactly when its lowercased name
ends with ".dcm" or its declared MIME type equals "application/dicom";
in particular FILE.DCM, file.dcm and File.Dcm are DICOM candidates for
every MIME type and size. -/
theorem isDicomFile_characterization (f : JSFile) (mime : String) (n : Nat) :
    (isDicomFile f = true ↔
      (jsEndsWith (jsToLower f.name) ".dcm" = true ∨ f.type = "application/dicom"))
    ∧ isDicomFile ⟨"FILE.DCM", mime, n⟩ = true
    ∧ isDicomFile ⟨"file.dcm", mime, n⟩ = true
    ∧ isDicomFile ⟨"File.Dcm", mime, n⟩ = true := by
  refine ⟨?_, ?_, ?_, ?_⟩
  · simp [isDicomFile]
  · have h : jsEndsWith (jsToLower "FILE.DCM") ".dcm" = true := by decide
    simp [isDicomFile, h]
  · have h : jsEndsWith (jsToLower "file.dcm") ".dcm" = true := by decide
    simp [isDicomFile, h]
  · have h : jsEndsWith (jsToLower "File.Dcm") ".dcm" = true := by decide
    simp [isDicomFile, h]

/-- C6 counterexample: the MIME "xapplication/dicom" contains
"application/dicom" as a substring, yet isDicomFile rejects it (the
DICOM MIME check is whole-string equality) and the file classifies
unknown; and "VIDEO/MP4" contains "video/mp4" up to letter case, yet
isVideoFile rejects it (the substring check is case-sensitive). -/
theorem mime_substring_counterexample :
    (jsIncludes "xapplication/dicom" "application/dicom" = true
      ∧ isDicomFile ⟨"a.bin", "xapplication/dicom", 10⟩ = false
      ∧ getDetailedFileType ⟨"a.bin", "xapplication/dicom", 10⟩ RegOutcome.throwErr
          = FileType.unknown)
    ∧ (jsIncludes (jsToLower "VIDEO/MP4") "video/mp4" = true
      ∧ isVideoFile ⟨"a.bin", "VIDEO/MP4", 10⟩ = false) := by decide

/-- C6 amended: extension checks are case-insensitive suffix tests on
the lowercased name; the video and image MIME checks are case-sensitive
substring tests, so a declared MIME containing a target anywhere in
exact case triggers the match; the DICOM MIME check alone is an exact
whole-string equality with "application/dicom". -/
theorem mime_matching_amended (f : JSFile) :
    (∀ t, t ∈ videoMimeTypes → jsIncludes f.type t = true → isVideoFile f = true)
    ∧ (∀ t, t ∈ imageMimeTypes → jsIncludes f.type t = true → isImageFile f = true)
    ∧ (∀ e, e ∈ videoExtensions → jsEndsWith (jsToLower f.name) e = true →
        isVideoFile f = true)
    ∧ (∀ e, e ∈ imageExtensions → jsEndsWith (jsToLower f.name) e = true →
        isImageFile f = true)
    ∧ (jsEndsWith (jsToLower f.name) ".dcm" = false →
        (isDicomFile f = true ↔ f.type = "application/dicom")) := by
  refine ⟨?_, ?_, ?_, ?_, ?_⟩
  · intro t ht hc
    simp only [isVideoFile, Bool.or_eq_true, List.any_eq_true]
    exact Or.inl ⟨t, ht, hc⟩
  · intro t ht hc
    simp only [isImageFile, Bool.or_eq_true, List.any_eq_true]
    exact Or.inl ⟨t, ht, hc⟩
  · intro e he hc
    simp only [isVideoFile, Bool.or_eq_true, List.any_eq_true]
    exact Or.inr ⟨e, he, hc⟩
  · intro e he hc
    simp only [isImageFile, Bool.or_eq_true, List.any_eq_true]
    exact Or.inr ⟨e, he, hc⟩
  · intro h
    simp [isDicomFile, h]

/-- Witness for the amended C6: vendor-wrapped MIME strings in exact
case match, upper-case extensions match, and an exact DICOM MIME
matches. -/
theorem mime_matching_amended_witness :
    isVideoFile ⟨"file.bin", "x-vendor.video/mp4.variant", 3⟩ = true
    ∧ isImageFile ⟨"file.bin", "weird image/png thing", 3⟩ = true
    ∧ isVideoFile ⟨"MOVIE.WEBM", "", 3⟩ = true
    ∧ isImageFile ⟨"Photo.JPeG", "", 3⟩ = true
    ∧ (isDicomFile ⟨"file.bin", "application/dicom", 3⟩ = true ↔
        (JSFile.mk "file.bin" "application/dicom" 3).type = "application/dicom") :=
  ⟨(mime_matching_amended ⟨"file.bin", "x-vendor.video/mp4.variant", 3⟩).1
      "video/mp4" (by decide) (by decide),
   (mime_matching_amended ⟨"file.bin", "weird image/png thing", 3⟩).2.1
      "image/png" (by decide) (by decide),
   (mime_matching_amended ⟨"MOVIE.WEBM", "", 3⟩).2.2.1 ".webm" (by decide) (by decide),
   (mime_matching_amended ⟨"Photo.JPeG", "", 3⟩).2.2.2.1 ".jpeg" (by decide) (by decide),
   (mime_matching_amended ⟨"file.bin", "application/dicom", 3⟩).2.2.2.2 (by decide)⟩

/-- C7: the upload handlers apply a resolved classification
unconditionally, so a stale probe result is NOT discarded. In the
trace below the user uploads a.dcm (a slow DICOM probe that will
report 5 frames), then uploads b.png, whose classification resolves
first: the state then shows b.png as regular-image. When the stale
a.dcm probe resolves afterwards, its continuation overwrites the state
with a.dcm / dicom-video even though a.dcm was no longer the selected
file, exhibiting the race the specification says must be prevented. -/
theorem stale_probe_result_applied :
    (runApp initApp
        [AppEvent.upload ⟨"a.dcm", "", 10⟩ (RegOutcome.ok (ProbeOutcome.ok none (some 5) none)),
         AppEvent.upload ⟨"b.png", "", 10⟩ RegOutcome.throwErr,
         AppEvent.resolveAt 1]).file = some ⟨"b.png", "", 10⟩
    ∧ (runApp initApp
        [AppEvent.upload ⟨"a.dcm", "", 10⟩ (RegOutcome.ok (ProbeOutcome.ok none (some 5) none)),
         AppEvent.upload ⟨"b.png", "", 10⟩ RegOutcome.throwErr,
         AppEvent.resolveAt 1]).fileType = FileType.regularImage
    ∧ runApp initApp
        [AppEvent.upload ⟨"a.dcm", "", 10⟩ (RegOutcome.ok (ProbeOutcome.ok none (some 5) none)),
         AppEvent.upload ⟨"b.png", "", 10⟩ RegOutcome.throwErr,
         AppEvent.resolveAt 1, AppEvent.resolveAt 0]
      = { file := some ⟨"a.dcm", "", 10⟩, fileType := FileType.dicomVideo, pending := [] } := by
  decide

/-- C8: the classification depends only on the file name, the declared
MIME type and the registration/probe outcome; two files agreeing on
those (in particular, differing in size) classify identically, so
repeated runs with identical inputs return the same tag. -/
theorem classify_deterministic (f g : JSFile) (reg : RegOutcome)
    (hn : f.name = g.name) (ht : f.type = g.type) :
    getDetailedFileType f reg = getDetailedFileType g reg := by
  cases f with
  | mk n1 t1 s1 =>
    cases g with
    | mk n2 t2 s2 =>
      simp only at hn ht
      subst hn; subst ht
      simp [getDetailedFileType, isDicomFile, isVideoFile, isImageFile]

/-- Witness for C8: two files equal except for size classify equally. -/
theorem classify_deterministic_witness :
    getDetailedFileType ⟨"a.dcm", "application/dicom", 17⟩ (RegOutcome.ok ProbeOutcome.throwErr)
      = getDetailedFileType ⟨"a.dcm", "application/dicom", 90210⟩
          (RegOutcome.ok ProbeOutcome.throwErr) :=
  classify_deterministic ⟨"a.dcm", "application/dicom", 17⟩
    ⟨"a.dcm", "application/dicom", 90210⟩ (RegOutcome.ok ProbeOutcome.throwErr) rfl rfl

/-- C9: for every file and every collaborator behaviour the classifier
returns one of the five enumeration tags (the embedding returns a plain
FileType, never an error), and a registration throw on a DICOM
candidate yields dicom-image just as a probe throw does. -/
theorem classify_total (f : JSFile) (reg : RegOutcome) :
    (getDetailedFileType f reg = FileType.dicomVideo ∨
     getDetailedFileType f reg = FileType.dicomImage ∨
     getDetailedFileType f reg = FileType.regularVideo ∨
     getDetailedFileType f reg = FileType.regularImage ∨
     getDetailedFileType f reg = FileType.unknown)
    ∧ (isDicomFile f = true →
        getDetailedFileType f RegOutcome.throwErr = FileType.dicomImage) := by
  constructor
  · cases h : getDetailedFileType f reg <;> simp
  · intro h
    simp [getDetailedFileType, h]

/-- Witness for C9 at a concrete DICOM candidate whose registration
throws. -/
theorem classify_total_witness :
    (getDetailedFileType ⟨"a.dcm", "", 5⟩ RegOutcome.throwErr = FileType.dicomVideo ∨
     getDetailedFileType ⟨"a.dcm", "", 5⟩ RegOutcome.throwErr = FileType.dicomImage ∨
     getDetailedFileType ⟨"a.dcm", "", 5⟩ RegOutcome.throwErr = FileType.regularVideo ∨
     getDetailedFileType ⟨"a.dcm", "", 5⟩ RegOutcome.throwErr = FileType.regularImage ∨
     getDetailedFileType ⟨"a.dcm", "", 5⟩ RegOutcome.throwErr = FileType.unknown)
    ∧ getDetailedFileType ⟨"a.dcm", "", 5⟩ RegOutcome.throwErr = FileType.dicomImage :=
  ⟨(classify_total ⟨"a.dcm", "", 5⟩ RegOutcome.throwErr).1,
   (classify_total ⟨"a.dcm", "", 5⟩ RegOutcome.throwErr).2 (by decide)⟩

/-- C10: when both frame-count fields are absent or 0 the falsy
coalescing chain yields the default 1, a probed 0 is indistinguishable
from an absent value, and such a DICOM candidate classifies dicom-image
whenever its SOP class is outside the known-video list. -/
theorem falsy_frames_default (f : JSFile) (sop : Option String) (mf nf : Option Int)
    (h : isDicomFile f = true)
    (hmf : mf = none ∨ mf = some 0) (hnf : nf = none ∨ nf = some 0) :
    jsFrames mf nf = 1
    ∧ jsFrames mf nf = jsFrames none none
    ∧ (videoSopClasses.contains (sop.getD "") = false →
        getDetailedFileType f (RegOutcome.ok (ProbeOutcome.ok sop mf nf))
          = FileType.dicomImage) := by
  have hfr : jsFrames mf nf = 1 := by
    rcases hmf with h1 | h1 <;> rcases hnf with h2 | h2 <;> subst h1 <;> subst h2 <;> rfl
  refine ⟨hfr, by rw [hfr]; rfl, ?_⟩
  intro hs
  have hs2 : sop.getD "" ∉ videoSopClasses := by simpa using hs
  simp [getDetailedFileType, h, isDicomVideo, hs, hs2, hfr]

/-- Witness for C10: both frame fields probe as 0 and the SOP class is
unknown, so the file classifies dicom-image. -/
theorem falsy_frames_default_witness :
    jsFrames (some 0) (some 0) = 1
    ∧ jsFrames (some 0) (some 0) = jsFrames none none
    ∧ getDetailedFileType ⟨"zero.dcm", "", 1⟩
        (RegOutcome.ok (ProbeOutcome.ok (some "1.9") (some 0) (some 0)))
      = FileType.dicomImage :=
  ⟨(falsy_frames_default ⟨"zero.dcm", "", 1⟩ (some "1.9") (some 0) (some 0)
      (by decide) (Or.inr rfl) (Or.inr rfl)).1,
   (falsy_frames_default ⟨"zero.dcm", "", 1⟩ (some "1.9") (some 0) (some 0)
      (by decide) (Or.inr rfl) (Or.inr rfl)).2.1,
   (falsy_frames_default ⟨"zero.dcm", "", 1⟩ (some "1.9") (some 0) (some 0)
      (by decide) (Or.inr rfl) (Or.inr rfl)).2.2 (by decide)⟩
